import Mathlib

/-!
Verification of the MKProject measurement-statistics script
(`MKstatistics.py`) against its natural-language specification.

The script is embedded shallowly:

* Python floats that can be NaN are modelled by `PyFloat`
  (a rational number or NaN); already-cleaned numeric series are
  plain lists of rationals.
* `filter_list`, `plot_histogram` (its bin-width selection and bin
  count), `scatter_plot` (its grouping and legend labelling) and
  `merge_pdfs` (its page concatenation) are translated function by
  function from the source.
* Library calls whose outcome the script depends on are modelled from
  their documented behaviour: `min`/`max` raise on an empty sequence,
  `ax.hist` raises when the integer bin count is not positive, and
  `PdfPages.savefig` raises when handed `None` while no figure is
  active (every figure the script creates is closed on creation).
* The module-level statements (the guarded load of `df`, the row loop
  and the per-column histogram loop) are embedded as explicit
  state-passing over an outcome type, with Python exceptions as
  `Except` errors.
-/

namespace MKstatistics

/-- Model of a Python float as consumed by `filter_list`: either an
ordinary (rational) number or NaN. -/
inductive PyFloat where
  | nan : PyFloat
  | num (q : ℚ) : PyFloat
deriving DecidableEq

/-- Model of Python's `math.isnan`. -/
def isnan : PyFloat → Bool
  | .nan => true
  | .num _ => false

/-- Translation of `filter_list` (MKstatistics.py lines 55-67): the
list comprehension `[e for e in in_list if not math.isnan(e)]`. -/
def filter_list : List PyFloat → List PyFloat
  | [] => []
  | e :: rest => if isnan e then filter_list rest else e :: filter_list rest

/-- Model of Python's builtin `min` over a list: `none` when the list
is empty (Python raises `ValueError` there), otherwise the left fold
of binary `min` over the elements. -/
def list_min : List ℚ → Option ℚ
  | [] => none
  | x :: xs => some (xs.foldl min x)

/-- Model of Python's builtin `max` over a list, as `list_min`. -/
def list_max : List ℚ → Option ℚ
  | [] => none
  | x :: xs => some (xs.foldl max x)

/-- Translation of `gap = abs(max_value) - abs(min_value)` from
`plot_histogram` (MKstatistics.py line 143); `0` is returned in the
empty case, which `plot_histogram` never reaches (Python raised at
`min` already). -/
def gap_of (l : List ℚ) : ℚ :=
  match list_min l, list_max l with
  | some min_value, some max_value => |max_value| - |min_value|
  | _, _ => 0

/-- Translation of the bin-width selection chain of `plot_histogram`
(MKstatistics.py lines 145-158); note the first guard is
`0.01 <= gap <= 0.01`, i.e. `gap == 0.01` exactly. -/
def bin_width (gap : ℚ) : ℚ :=
  if 0.01 ≤ gap ∧ gap ≤ 0.01 then 0.001
  else if 0.1 < gap ∧ gap ≤ 2 then 0.1
  else if 2 < gap ∧ gap ≤ 20 then 1
  else if 20 < gap ∧ gap ≤ 100 then 5
  else if 100 < gap ∧ gap ≤ 1000 then 10
  else if 1000 < gap ∧ gap ≤ 10000 then 50
  else 1

/-- Translation of `num_bins = math.ceil(gap / bin_width)`
(MKstatistics.py line 160). -/
def num_bins (gap : ℚ) : Int := ⌈gap / bin_width gap⌉

/-- Rendered histogram figure: the data, the integer bin count passed
to `ax.hist`, and the title and axis labels set on the axes. -/
structure HistFigure where
  data : List ℚ
  bins : Int
  title : String
  xlabel : String
  ylabel : String
deriving DecidableEq

/-- Translation of `plot_histogram` (MKstatistics.py lines 126-177).
The `try` block computes `min`, `max`, `gap`, the bin width and the
bin count, then calls `ax.hist(in_list, bins=num_bins, ...)`. Python's
`min`/`max` raise `ValueError` on an empty list, and `ax.hist` raises
`ValueError` when its integer `bins` argument is not positive (modelled
from the documented numpy behaviour); the `except` clause catches any
exception, prints it and returns `None`. -/
def plot_histogram (in_list : List ℚ) (x_label y_label : String) :
    Option HistFigure :=
  match list_min in_list, list_max in_list with
  | some min_value, some max_value =>
    let gap := |max_value| - |min_value|
    if num_bins gap ≤ 0 then none
    else some ⟨in_list, num_bins gap, x_label ++ " distribution",
               x_label, y_label⟩
  | _, _ => none

/-- Model of `PdfPages.savefig` as the module-level loop uses it:
saving an actual figure succeeds, while `savefig(None)` falls back to
the active figure and raises `ValueError` because every figure this
script creates is closed (`plt.close`) on creation, so none is
active. -/
def pdf_savefig (fig : Option HistFigure) : Except String Unit :=
  match fig with
  | some _ => .ok ()
  | none => .error "ValueError: No figure None"

/-- Embedding of the module-level histogram loop (MKstatistics.py
lines 342-392): for each configured column, with its x- and y-axis
labels, the script computes `plot_histogram` and immediately calls
`pdf.savefig` on the result; an uncaught exception aborts the rest of
the loop. Returns the number of pages saved. -/
def histogram_loop : List (List ℚ × String × String) → Except String Nat
  | [] => .ok 0
  | (c, xl, yl) :: rest =>
    match pdf_savefig (plot_histogram c xl yl) with
    | .error e => .error e
    | .ok _ =>
      match histogram_loop rest with
      | .ok n => .ok (n + 1)
      | .error e => .error e

/-- Model of one row of the measurement table as consumed by
`scatter_plot`: a dictionary with the categorical `'Image'` entry and
numeric entries for the other column names (`item[x_label]`). -/
structure RowMap where
  Image : String
  fields : String → ℚ

/-- Rendered scatter point-series: the group's `'Image'` value, the
legend label passed to `ax.scatter`, and the plotted points. -/
structure ScatterSeries where
  image : String
  label : String
  points : List (ℚ × ℚ)

/-- Translation of Python's `image.split('_')[0]`: the head of the
split on `'_'`, i.e. the text before the first underscore. -/
def split_first (s : String) : String := (s.splitOn "_").headD ""

/-- Translation of `scatter_plot` (MKstatistics.py lines 71-103):
`unique_images = set(item['Image'] for item in in_list_of_maps)` is
embedded as the deduplicated list of `'Image'` values (the set holds
exactly the distinct values; Python leaves its iteration order
unspecified), and for each unique image the rows are filtered to that
image and one point-series is drawn with label `image.split('_')[0]`. -/
def scatter_plot (in_list_of_maps : List RowMap) (x_label y_label : String) :
    List ScatterSeries :=
  let unique_images := (in_list_of_maps.map RowMap.Image).dedup
  unique_images.map fun image =>
    let filtered_maps := in_list_of_maps.filter fun item => item.Image == image
    { image := image
      label := split_first image
      points := (filtered_maps.map fun item => item.fields x_label).zip
        (filtered_maps.map fun item => item.fields y_label) }

/-- Translation of the page-copy loops of `merge_pdfs`
(MKstatistics.py lines 270-278): `for page_num in range(len(pages)):
writer.add_page(pages[page_num])` walks the reader's pages in index
order, appending each to the writer. -/
def add_pages {α : Type} (writer : List α) (pages : List α) : List α :=
  pages.foldl (fun w page => w ++ [page]) writer

/-- Translation of `merge_pdfs` (MKstatistics.py lines 253-287): a
fresh `PdfWriter`, the first document's pages added in order, then the
second document's pages added in order; the result is what is written
to the output path. -/
def merge_pdfs {α : Type} (pdf1_pages pdf2_pages : List α) : List α :=
  add_pages (add_pages [] pdf1_pages) pdf2_pages

/-- Configured input path (MKstatistics.py line 42). -/
def measurements_file_tsv : String :=
  "/Users/lilly-flore/Desktop/Bachelor_Project/MKProject/measurements.tsv"

/-- Outcome of the guarded `pd.read_csv` call (MKstatistics.py lines
44-51): the table, or one of the three caught exception kinds. -/
inductive LoadOutcome where
  | ok (table : List RowMap)
  | fileNotFound
  | emptyData
  | parserError

/-- Message printed by each `except` clause of the load block
(MKstatistics.py lines 46-51); `none` when the load succeeded. -/
def load_message : LoadOutcome → Option String
  | .ok _ => none
  | .fileNotFound =>
    some ("Error: The file " ++ measurements_file_tsv ++ " was not found.")
  | .emptyData =>
    some ("Error: The file " ++ measurements_file_tsv ++
      " is empty or contains no data.")
  | .parserError =>
    some ("Error: There was an issue parsing the TSV file " ++
      measurements_file_tsv ++ ".")

/-- Embedding of the first statement after the load block that reads
`df` (the row loop, MKstatistics.py line 296). The script continues
unconditionally after the `try`/`except`; the name `df` is bound only
when the load succeeded, so on any load failure evaluating
`df.iterrows()` raises `NameError`, which nothing catches. -/
def module_row_loop : LoadOutcome → Except String (List RowMap)
  | .ok table => .ok table
  | _ => .error "NameError: name df is not defined"

theorem filter_list_sublist (l : List PyFloat) : (filter_list l).Sublist l := by
  induction l with
  | nil => simp [filter_list]
  | cons e rest ih =>
    by_cases h : isnan e
    · simp only [filter_list, h, if_pos]
      exact ih.cons e
    · simp only [filter_list, h, if_neg, Bool.false_eq_true, not_false_eq_true]
      exact ih.cons₂ e

theorem mem_filter_list_not_nan {l : List PyFloat} {e : PyFloat}
    (h : e ∈ filter_list l) : isnan e = false := by
  induction l with
  | nil => simp [filter_list] at h
  | cons a rest ih =>
    by_cases ha : isnan a
    · simp only [filter_list, ha, if_pos] at h
      exact ih h
    · simp only [filter_list, ha, Bool.false_eq_true, not_false_eq_true, if_neg,
        List.mem_cons] at h
      rcases h with rfl | h
      · simpa using ha
      · exact ih h

theorem count_filter_list (l : List PyFloat) (e : PyFloat)
    (he : isnan e = false) : (filter_list l).count e = l.count e := by
  induction l with
  | nil => rfl
  | cons a rest ih =>
    by_cases ha : isnan a
    · have hne : a ≠ e := by
        intro h
        rw [h, he] at ha
        exact Bool.false_ne_true ha
      simp only [filter_list, ha, if_pos]
      rw [List.count_cons_of_ne (fun h => hne h.symm)]
      exact ih
    · simp only [filter_list, ha, Bool.false_eq_true, not_false_eq_true, if_neg]
      by_cases hae : e = a
      · subst hae
        rw [List.count_cons_self, List.count_cons_self, ih]
      · rw [List.count_cons_of_ne hae, List.count_cons_of_ne hae, ih]

theorem filter_list_all_clean (l : List PyFloat)
    (h : ∀ e ∈ l, isnan e = false) : filter_list l = l := by
  induction l with
  | nil => rfl
  | cons a rest ih =>
    have ha := h a (List.mem_cons_self a rest)
    simp only [filter_list, ha, Bool.false_eq_true, not_false_eq_true, if_neg]
    exact congrArg (a :: ·) (ih fun e he => h e (List.mem_cons_of_mem a he))

/-- C7: `filter_list` returns exactly the subsequence of non-NaN
entries in their original relative order: the result is a sublist of
the input (so order is preserved and nothing is reordered), every
retained entry is not NaN, and every non-NaN entry is retained with
its original multiplicity (nothing is deduplicated, replaced or
interpolated). -/
theorem c7_filter_list_clean_subsequence (l : List PyFloat) :
    (filter_list l).Sublist l ∧
    (∀ e ∈ filter_list l, isnan e = false) ∧
    (∀ e, isnan e = false → (filter_list l).count e = l.count e) :=
  ⟨filter_list_sublist l,
   fun _ he => mem_filter_list_not_nan he,
   fun e he => count_filter_list l e he⟩

/-- Witness for C7 at the concrete input `[7, NaN, 7, 2]`. -/
theorem c7_witness :
    (filter_list [.num 7, .nan, .num 7, .num 2]).count (.num 7) =
      ([PyFloat.num 7, .nan, .num 7, .num 2]).count (.num 7) :=
  (c7_filter_list_clean_subsequence [.num 7, .nan, .num 7, .num 2]).2.2
    (.num 7) rfl

/-- C8: cleaning is idempotent — `filter_list` on a list already free
of NaN values returns the same sequence, and in particular applying
`filter_list` to the output of a previous `filter_list` call returns
that output unchanged. -/
theorem c8_filter_list_idempotent :
    (∀ l : List PyFloat, (∀ e ∈ l, isnan e = false) → filter_list l = l) ∧
    (∀ l : List PyFloat, filter_list (filter_list l) = filter_list l) :=
  ⟨filter_list_all_clean,
   fun l => filter_list_all_clean (filter_list l)
     (fun _ he => mem_filter_list_not_nan he)⟩

/-- Witness for C8 at the concrete NaN-free input `[1, 2]` and at the
output of a previous cleaning of `[1, NaN, 2]`. -/
theorem c8_witness :
    filter_list [PyFloat.num 1, .num 2] = [PyFloat.num 1, .num 2] ∧
    filter_list (filter_list [.num 1, .nan, .num 2]) =
      filter_list [.num 1, .nan, .num 2] :=
  ⟨c8_filter_list_idempotent.1 [PyFloat.num 1, .num 2] (by decide),
   c8_filter_list_idempotent.2 [.num 1, .nan, .num 2]⟩

/-- C9: `filter_list` has no error case — it is total, always returns
a NaN-free list, and on a column whose entries are all NaN it returns
the empty series. -/
theorem c9_filter_list_total (l : List PyFloat) :
    (∀ e ∈ filter_list l, isnan e = false) ∧
    ((∀ e ∈ l, isnan e = true) → filter_list l = []) := by
  refine ⟨fun _ he => mem_filter_list_not_nan he, fun h => ?_⟩
  induction l with
  | nil => rfl
  | cons a rest ih =>
    have ha := h a (List.mem_cons_self a rest)
    simp only [filter_list, ha, if_pos]
    exact ih fun e he => h e (List.mem_cons_of_mem a he)

/-- Witness for C9 at the all-NaN column `[NaN, NaN]`. -/
theorem c9_witness : filter_list [PyFloat.nan, .nan] = [] :=
  (c9_filter_list_total [.nan, .nan]).2 (by decide)

theorem plot_histogram_bins {l : List ℚ} {xl yl : String} {fig : HistFigure}
    (h : plot_histogram l xl yl = some fig) :
    fig.bins = num_bins (gap_of l) := by
  match hl : l with
  | [] => simp [plot_histogram, list_min, list_max] at h
  | x :: xs =>
    simp only [plot_histogram, list_min, list_max, gap_of] at h ⊢
    split at h
    · exact absurd h (by simp)
    · exact (Option.some_inj.mp h) ▸ rfl

theorem bin_width_band_01_2 {g : ℚ} (h1 : 0.1 < g) (h2 : g ≤ 2) :
    bin_width g = 0.1 := by
  have n1 : ¬(0.01 ≤ g ∧ g ≤ 0.01) := fun h => by linarith [h.2]
  unfold bin_width
  rw [if_neg n1, if_pos ⟨h1, h2⟩]

theorem bin_width_band_2_20 {g : ℚ} (h1 : 2 < g) (h2 : g ≤ 20) :
    bin_width g = 1 := by
  have n1 : ¬(0.01 ≤ g ∧ g ≤ 0.01) := fun h => by linarith [h.2]
  have n2 : ¬(0.1 < g ∧ g ≤ 2) := fun h => by linarith [h.2]
  unfold bin_width
  rw [if_neg n1, if_neg n2, if_pos ⟨h1, h2⟩]

theorem bin_width_band_20_100 {g : ℚ} (h1 : 20 < g) (h2 : g ≤ 100) :
    bin_width g = 5 := by
  have n1 : ¬(0.01 ≤ g ∧ g ≤ 0.01) := fun h => by linarith [h.2]
  have n2 : ¬(0.1 < g ∧ g ≤ 2) := fun h => by linarith [h.2]
  have n3 : ¬(2 < g ∧ g ≤ 20) := fun h => by linarith [h.2]
  unfold bin_width
  rw [if_neg n1, if_neg n2, if_neg n3, if_pos ⟨h1, h2⟩]

theorem bin_width_band_100_1000 {g : ℚ} (h1 : 100 < g) (h2 : g ≤ 1000) :
    bin_width g = 10 := by
  have n1 : ¬(0.01 ≤ g ∧ g ≤ 0.01) := fun h => by linarith [h.2]
  have n2 : ¬(0.1 < g ∧ g ≤ 2) := fun h => by linarith [h.2]
  have n3 : ¬(2 < g ∧ g ≤ 20) := fun h => by linarith [h.2]
  have n4 : ¬(20 < g ∧ g ≤ 100) := fun h => by linarith [h.2]
  unfold bin_width
  rw [if_neg n1, if_neg n2, if_neg n3, if_neg n4, if_pos ⟨h1, h2⟩]

theorem bin_width_band_1000_10000 {g : ℚ} (h1 : 1000 < g) (h2 : g ≤ 10000) :
    bin_width g = 50 := by
  have n1 : ¬(0.01 ≤ g ∧ g ≤ 0.01) := fun h => by linarith [h.2]
  have n2 : ¬(0.1 < g ∧ g ≤ 2) := fun h => by linarith [h.2]
  have n3 : ¬(2 < g ∧ g ≤ 20) := fun h => by linarith [h.2]
  have n4 : ¬(20 < g ∧ g ≤ 100) := fun h => by linarith [h.2]
  have n5 : ¬(100 < g ∧ g ≤ 1000) := fun h => by linarith [h.2]
  unfold bin_width
  rw [if_neg n1, if_neg n2, if_neg n3, if_neg n4, if_neg n5, if_pos ⟨h1, h2⟩]

theorem bin_width_above_10000 {g : ℚ} (h1 : 10000 < g) : bin_width g = 1 := by
  have n1 : ¬(0.01 ≤ g ∧ g ≤ 0.01) := fun h => by linarith [h.2]
  have n2 : ¬(0.1 < g ∧ g ≤ 2) := fun h => by linarith [h.2]
  have n3 : ¬(2 < g ∧ g ≤ 20) := fun h => by linarith [h.2]
  have n4 : ¬(20 < g ∧ g ≤ 100) := fun h => by linarith [h.2]
  have n5 : ¬(100 < g ∧ g ≤ 1000) := fun h => by linarith [h.2]
  have n6 : ¬(1000 < g ∧ g ≤ 10000) := fun h => by linarith [h.2]
  unfold bin_width
  rw [if_neg n1, if_neg n2, if_neg n3, if_neg n4, if_neg n5, if_neg n6]

/-- Every gap strictly below `0.01` — in particular every nonpositive
gap and every gap in a dead sub-range of the heuristic — falls through
to the final `else` branch, bin width `1`. -/
theorem bin_width_below_001 {g : ℚ} (h1 : g < 0.01) : bin_width g = 1 := by
  have n1 : ¬(0.01 ≤ g ∧ g ≤ 0.01) := fun h => by linarith [h.1]
  have n2 : ¬(0.1 < g ∧ g ≤ 2) := fun h => by linarith [h.1]
  have n3 : ¬(2 < g ∧ g ≤ 20) := fun h => by linarith [h.1]
  have n4 : ¬(20 < g ∧ g ≤ 100) := fun h => by linarith [h.1]
  have n5 : ¬(100 < g ∧ g ≤ 1000) := fun h => by linarith [h.1]
  have n6 : ¬(1000 < g ∧ g ≤ 10000) := fun h => by linarith [h.1]
  unfold bin_width
  rw [if_neg n1, if_neg n2, if_neg n3, if_neg n4, if_neg n5, if_neg n6]

theorem bin_width_dead_range {g : ℚ} (h1 : 0.01 < g) (h2 : g ≤ 0.1) :
    bin_width g = 1 := by
  have n1 : ¬(0.01 ≤ g ∧ g ≤ 0.01) := fun h => by linarith [h.2]
  have n2 : ¬(0.1 < g ∧ g ≤ 2) := fun h => by linarith [h.1]
  have n3 : ¬(2 < g ∧ g ≤ 20) := fun h => by linarith [h.1]
  have n4 : ¬(20 < g ∧ g ≤ 100) := fun h => by linarith [h.1]
  have n5 : ¬(100 < g ∧ g ≤ 1000) := fun h => by linarith [h.1]
  have n6 : ¬(1000 < g ∧ g ≤ 10000) := fun h => by linarith [h.1]
  unfold bin_width
  rw [if_neg n1, if_neg n2, if_neg n3, if_neg n4, if_neg n5, if_neg n6]

/-- Evaluation of `gap_of` on a two-element nonnegative ascending
series. -/
theorem gap_of_pair {a b : ℚ} (hab : a ≤ b) (ha : 0 ≤ a) :
    gap_of [a, b] = b - a := by
  have hb : 0 ≤ b := le_trans ha hab
  simp only [gap_of, list_min, list_max, List.foldl_cons, List.foldl_nil]
  rw [min_eq_left hab, max_eq_right hab, abs_of_nonneg ha, abs_of_nonneg hb]

/-- C1: for every numeric series with at least 2 distinct values,
with `gap = |max| - |min|`, `plot_histogram` selects bin width `0.1`
for `gap` in `(0.1, 2]`, `1` for `(2, 20]`, `5` for `(20, 100]`, `10`
for `(100, 1000]`, `50` for `(1000, 10000]`, and `1` otherwise — in
particular for `gap` in `(0.01, 0.1]` and for `gap > 10000` — and the
bin count of any figure it produces equals `ceil(gap / bin_width)`. -/
theorem c1_bin_width_bands (l : List ℚ)
    (hd : ∃ a ∈ l, ∃ b ∈ l, a ≠ b) :
    ((0.1 < gap_of l ∧ gap_of l ≤ 2) → bin_width (gap_of l) = 0.1) ∧
    ((2 < gap_of l ∧ gap_of l ≤ 20) → bin_width (gap_of l) = 1) ∧
    ((20 < gap_of l ∧ gap_of l ≤ 100) → bin_width (gap_of l) = 5) ∧
    ((100 < gap_of l ∧ gap_of l ≤ 1000) → bin_width (gap_of l) = 10) ∧
    ((1000 < gap_of l ∧ gap_of l ≤ 10000) → bin_width (gap_of l) = 50) ∧
    (((0.01 < gap_of l ∧ gap_of l ≤ 0.1) ∨ 10000 < gap_of l) →
      bin_width (gap_of l) = 1) ∧
    (∀ (xl yl : String) (fig : HistFigure),
      plot_histogram l xl yl = some fig →
      fig.bins = ⌈gap_of l / bin_width (gap_of l)⌉) :=
  ⟨fun h => bin_width_band_01_2 h.1 h.2,
   fun h => bin_width_band_2_20 h.1 h.2,
   fun h => bin_width_band_20_100 h.1 h.2,
   fun h => bin_width_band_100_1000 h.1 h.2,
   fun h => bin_width_band_1000_10000 h.1 h.2,
   fun h => h.elim (fun hg => bin_width_dead_range hg.1 hg.2)
     bin_width_above_10000,
   fun _ _ _ hfig => plot_histogram_bins hfig⟩

/-- Witness for C1 at the concrete series `[1, 2]` (two distinct
values, `gap = 1 ∈ (0.1, 2]`): the selected bin width is `0.1`. -/
theorem c1_witness : bin_width (gap_of [1, 2]) = 0.1 :=
  (c1_bin_width_bands [1, 2]
    ⟨1, by simp, 2, by simp, by norm_num⟩).1
    (by rw [gap_of_pair (by norm_num) (by norm_num)]; norm_num)

/-- C2 counterexample: the series `[1, 201/200]` has two distinct
values and `gap = 0.005 ≤ 0.01`, yet the selected bin width is `1`,
not `0.001` — the first guard of the source, `0.01 <= gap <= 0.01`,
only fires at `gap == 0.01` exactly. -/
theorem c2_counterexample :
    (∃ a ∈ ([1, 201/200] : List ℚ), ∃ b ∈ ([1, 201/200] : List ℚ), a ≠ b) ∧
    gap_of [1, 201/200] ≤ 0.01 ∧
    bin_width (gap_of [1, 201/200]) = 1 ∧
    bin_width (gap_of [1, 201/200]) ≠ 0.001 := by
  have hg : gap_of [(1 : ℚ), 201/200] = 1/200 := by
    rw [gap_of_pair (by norm_num) (by norm_num)]; norm_num
  refine ⟨⟨1, by simp, 201/200, by simp, by norm_num⟩, ?_, ?_, ?_⟩
  · rw [hg]; norm_num
  · rw [hg]; exact bin_width_below_001 (by norm_num)
  · rw [hg, bin_width_below_001 (by norm_num)]; norm_num

/-- C2 amended: for a series with at least 2 distinct values whose
`gap ≤ 0.01`, `plot_histogram` selects bin width `0.001` exactly when
`gap = 0.01`, and bin width `1` when `gap < 0.01`. -/
theorem c2_small_gap_bin_width (l : List ℚ)
    (hd : ∃ a ∈ l, ∃ b ∈ l, a ≠ b) (hle : gap_of l ≤ 0.01) :
    (gap_of l = 0.01 → bin_width (gap_of l) = 0.001) ∧
    (gap_of l < 0.01 → bin_width (gap_of l) = 1) := by
  refine ⟨fun h => ?_, fun h => bin_width_below_001 h⟩
  rw [h]
  unfold bin_width
  rw [if_pos ⟨le_refl _, le_refl _⟩]

/-- Witness for C2 (amended) at the series `[1, 101/100]`, whose gap
is exactly `0.01`: the selected bin width is `0.001`. -/
theorem c2_witness : bin_width (gap_of [1, 101/100]) = 0.001 := by
  have hg : gap_of [(1 : ℚ), 101/100] = 0.01 := by
    rw [gap_of_pair (by norm_num) (by norm_num)]; norm_num
  exact (c2_small_gap_bin_width [1, 101/100]
    ⟨1, by simp, 101/100, by simp, by norm_num⟩ (le_of_eq hg)).1 hg

/-- C10: for every non-empty series whose minimum has absolute value
at least that of its maximum, `gap = |max| - |min|` is nonpositive,
the computed bin count is nonpositive, the `ax.hist` call fails, the
exception is caught, and `plot_histogram` returns `None` — no figure
is produced even when the series has many distinct values. -/
theorem c10_nonpositive_gap (l : List ℚ) (m M : ℚ)
    (hm : list_min l = some m) (hM : list_max l = some M)
    (habs : |M| ≤ |m|) :
    gap_of l ≤ 0 ∧ num_bins (gap_of l) ≤ 0 ∧
    ∀ xl yl, plot_histogram l xl yl = none := by
  have hg : gap_of l = |M| - |m| := by
    simp [gap_of, hm, hM]
  have hgle : gap_of l ≤ 0 := by rw [hg]; linarith
  have hb : num_bins (gap_of l) ≤ 0 := by
    rw [num_bins, bin_width_below_001 (lt_of_le_of_lt hgle (by norm_num)),
      div_one]
    exact Int.ceil_le.mpr (by exact_mod_cast hgle)
  refine ⟨hgle, hb, fun xl yl => ?_⟩
  simp only [plot_histogram, hm, hM]
  rw [← hg] at *
  rw [if_pos hb]

/-- Witness for C10 at the series `[-10, 1]` (distinct values, minimum
of larger magnitude): no histogram figure is produced. -/
theorem c10_witness : plot_histogram [-10, 1] "Hematoxylin: Min"
    "Number of Megakaryocytes" = none := by
  have hm : list_min [(-10 : ℚ), 1] = some (-10) := by
    simp only [list_min, List.foldl_cons, List.foldl_nil, Option.some_inj]
    rw [min_eq_left (by norm_num)]
  have hM : list_max [(-10 : ℚ), 1] = some 1 := by
    simp only [list_max, List.foldl_cons, List.foldl_nil, Option.some_inj]
    rw [max_eq_right (by norm_num)]
  have habs : |(1 : ℚ)| ≤ |(-10 : ℚ)| := by
    rw [abs_of_nonneg (by norm_num), abs_of_nonpos (by norm_num)]
    norm_num
  exact (c10_nonpositive_gap [-10, 1] (-10) 1 hm hM habs).2.2 _ _

theorem foldl_min_const (x : ℚ) (xs : List ℚ) (h : ∀ y ∈ xs, y = x) :
    xs.foldl min x = x := by
  induction xs with
  | nil => rfl
  | cons a t ih =>
    have ha : a = x := h a (by simp)
    simp only [List.foldl_cons, ha, min_self]
    exact ih fun y hy => h y (by simp [hy])

theorem foldl_max_const (x : ℚ) (xs : List ℚ) (h : ∀ y ∈ xs, y = x) :
    xs.foldl max x = x := by
  induction xs with
  | nil => rfl
  | cons a t ih =>
    have ha : a = x := h a (by simp)
    simp only [List.foldl_cons, ha, max_self]
    exact ih fun y hy => h y (by simp [hy])

theorem plot_histogram_degenerate (l : List ℚ) (xl yl : String)
    (h : l = [] ∨ ∃ v, ∀ x ∈ l, x = v) :
    plot_histogram l xl yl = none := by
  rcases h with rfl | ⟨v, hv⟩
  · rfl
  · cases l with
    | nil => rfl
    | cons x xs =>
      have hxs : ∀ y ∈ xs, y = x := fun y hy =>
        (hv y (by simp [hy])).trans (hv x (by simp)).symm
      have hmin : list_min (x :: xs) = some x := by
        simp only [list_min, Option.some_inj]
        exact foldl_min_const x xs hxs
      have hmax : list_max (x :: xs) = some x := by
        simp only [list_max, Option.some_inj]
        exact foldl_max_const x xs hxs
      have hz : num_bins (|x| - |x|) ≤ 0 := by
        rw [sub_self, num_bins, bin_width_below_001 (by norm_num), div_one,
          Int.ceil_zero]
      simp only [plot_histogram, hmin, hmax]
      rw [if_pos hz]

/-- C4 amended: `plot_histogram` on an empty or single-valued series
reports a handled error and returns `None` rather than raising; but
the module-level loop then passes that `None` straight to
`pdf.savefig`, which raises an uncaught `ValueError`, so a column that
is empty after cleaning DOES abort the processing of every subsequent
column. -/
theorem c4_degenerate_column (l : List ℚ) (xl yl : String)
    (h : l = [] ∨ ∃ v, ∀ x ∈ l, x = v) :
    plot_histogram l xl yl = none ∧
    ∀ rest, histogram_loop ((l, xl, yl) :: rest) =
      .error "ValueError: No figure None" := by
  have hnone := plot_histogram_degenerate l xl yl h
  exact ⟨hnone, fun rest => by simp [histogram_loop, hnone, pdf_savefig]⟩

/-- Witness for C4 (amended) at the single-valued series `[5, 5]`. -/
theorem c4_witness :
    plot_histogram [5, 5] "Circularity" "Number of Megakaryocytes" = none ∧
    histogram_loop [([5, 5], "Circularity", "Number of Megakaryocytes")] =
      .error "ValueError: No figure None" :=
  ⟨(c4_degenerate_column [5, 5] "Circularity" "Number of Megakaryocytes"
      (Or.inr ⟨5, by simp⟩)).1,
   (c4_degenerate_column [5, 5] "Circularity" "Number of Megakaryocytes"
      (Or.inr ⟨5, by simp⟩)).2 []⟩

/-- C4 counterexample: with an empty first column and a second column
that would render fine on its own (`[1, 3]` produces a figure), the
module-level loop aborts at the empty column's `pdf.savefig(None)`
with an uncaught `ValueError`, so the subsequent column is never
processed — refuting "does not abort the processing of subsequent
columns". -/
theorem c4_counterexample :
    plot_histogram ([] : List ℚ) "Number of nuclei"
      "Number of Megakaryocytes" = none ∧
    (plot_histogram [1, 3] "MK Area µm^2"
      "Number of Megakaryocytes").isSome = true ∧
    histogram_loop
      [([], "Number of nuclei", "Number of Megakaryocytes"),
       ([1, 3], "MK Area µm^2", "Number of Megakaryocytes")] =
      .error "ValueError: No figure None" := by
  refine ⟨rfl, ?_, rfl⟩
  have hm : list_min [(1 : ℚ), 3] = some 1 := by
    simp only [list_min, List.foldl_cons, List.foldl_nil, Option.some_inj]
    rw [min_eq_left (by norm_num)]
  have hM : list_max [(1 : ℚ), 3] = some 3 := by
    simp only [list_max, List.foldl_cons, List.foldl_nil, Option.some_inj]
    rw [max_eq_right (by norm_num)]
  have hgap : |(3 : ℚ)| - |(1 : ℚ)| = 2 := by
    rw [abs_of_nonneg (by norm_num), abs_of_nonneg (by norm_num)]
    norm_num
  have hb : num_bins 2 = 20 := by
    rw [num_bins, bin_width_band_01_2 (by norm_num) (by norm_num)]
    norm_num
  simp only [plot_histogram, hm, hM, hgap, hb]
  norm_num

/-- C5: `scatter_plot` renders exactly one point-series per distinct
`'Image'` value, every input row appears in exactly one series — the
unique series keyed by its own `'Image'` value, which contains the
row's point — and each series' legend label is the text of the group
identifier before its first underscore. -/
theorem c5_scatter_grouping (rows : List RowMap) (x_label y_label : String) :
    (scatter_plot rows x_label y_label).length =
      ((rows.map RowMap.Image).dedup).length ∧
    (∀ r ∈ rows,
      ((scatter_plot rows x_label y_label).filter
        (fun s => s.image == r.Image)).length = 1) ∧
    (∀ r ∈ rows, ∀ s ∈ scatter_plot rows x_label y_label,
      s.image = r.Image →
        (r.fields x_label, r.fields y_label) ∈ s.points) ∧
    (∀ s ∈ scatter_plot rows x_label y_label,
      s.label = split_first s.image) := by
  refine ⟨by simp [scatter_plot], fun r hr => ?_, fun r hr s hs himg => ?_,
    fun s hs => ?_⟩
  · rw [scatter_plot, List.filter_map, List.length_map,
      ← List.countP_eq_length_filter]
    have hmem : r.Image ∈ (rows.map RowMap.Image).dedup :=
      List.mem_dedup.mpr (List.mem_map_of_mem RowMap.Image hr)
    have := List.count_eq_one_of_mem (List.nodup_dedup _) hmem
    rwa [List.count] at this
  · obtain ⟨img, _, rfl⟩ := List.mem_map.mp hs
    simp only at himg
    subst himg
    simp only [List.zip_map']
    refine List.mem_map_of_mem _ (List.mem_filter.mpr ⟨hr, ?_⟩)
    exact beq_self_eq_true r.Image
  · obtain ⟨img, _, rfl⟩ := List.mem_map.mp hs
    rfl

/-- Witness for C5 at three concrete rows, two sharing the image
`"slideA_1"`: that row's image keys exactly one series, the series
contains its point, and the series' label is `"slideA"`. -/
theorem c5_witness :
    ((scatter_plot
        [⟨"slideA_1", fun _ => 1⟩, ⟨"slideA_1", fun _ => 2⟩,
         ⟨"slideB_2", fun _ => 3⟩] "Area µm^2" "Circularity").filter
      (fun s => s.image == "slideA_1")).length = 1 :=
  (c5_scatter_grouping
    [⟨"slideA_1", fun _ => 1⟩, ⟨"slideA_1", fun _ => 2⟩,
     ⟨"slideB_2", fun _ => 3⟩] "Area µm^2" "Circularity").2.1
    ⟨"slideA_1", fun _ => 1⟩ (by simp)

theorem add_pages_eq_append {α : Type} (w p : List α) :
    add_pages w p = w ++ p := by
  induction p generalizing w with
  | nil => simp [add_pages]
  | cons a t ih =>
    simp only [add_pages, List.foldl_cons] at ih ⊢
    rw [ih]
    simp

/-- C6: `merge_pdfs` produces exactly the pages of the first input
document (the tables document, per the module-level call
`merge_pdfs(tables_pdf, graphs_pdf, output_path)`) in their original
order, followed by the pages of the second (the graphs document) in
their original order; being a function of the two inputs, the page
order is deterministic. -/
theorem c6_merge_pdfs_concat {α : Type} (tables_pages graphs_pages : List α) :
    merge_pdfs tables_pages graphs_pages = tables_pages ++ graphs_pages := by
  rw [merge_pdfs, add_pages_eq_append, add_pages_eq_append, List.nil_append]

/-- C3 (code behaviour at the failing inputs): each of the three load
failures prints its own distinct message, but the script then falls
through to the module-level row loop, where the unbound `df` raises an
uncaught `NameError` — an exception escapes, contradicting the claim
that the loader halts cleanly and no downstream stage executes. -/
theorem c3_load_failure_not_clean :
    (load_message .fileNotFound).isSome = true ∧
    (load_message .emptyData).isSome = true ∧
    (load_message .parserError).isSome = true ∧
    load_message .fileNotFound ≠ load_message .emptyData ∧
    load_message .fileNotFound ≠ load_message .parserError ∧
    load_message .emptyData ≠ load_message .parserError ∧
    module_row_loop .fileNotFound =
      .error "NameError: name df is not defined" ∧
    module_row_loop .emptyData =
      .error "NameError: name df is not defined" ∧
    module_row_loop .parserError =
      .error "NameError: name df is not defined" := by
  refine ⟨rfl, rfl, rfl, ?_, ?_, ?_, rfl, rfl, rfl⟩ <;> decide

end MKstatistics
